import Mathlib

/-!
Verification of the chat-composer widget
`src/components/inputs/textInput/components/TextInput.tsx` of
FlowiseChatEmbed.

The component's reactive signals become an explicit `ComposerState`
record, its props become a `Props` record, and each event handler
becomes a pure state-transition function.  JavaScript truthiness of
the optional numeric prop `maxChars` (`undefined` and `0` are falsy)
is embedded explicitly, and the nullish-coalescing operator `??` is
`Option.getD`.  Side effects that leave the widget (the `onSubmit`
callback, resetting the file input) are returned as explicit values
or traces.
-/

/-- Host-supplied props of the `TextInput` component that influence
the behaviour modelled here (styling props are irrelevant and
omitted).  Optional props are `Option`s, mirroring `undefined`. -/
structure Props where
  defaultValue : Option String
  disabled : Option Bool
  maxChars : Option Nat
  maxCharsWarningMessage : Option String
  autoFocus : Option Bool
  deriving Repr, DecidableEq

/-- The component's reactive state: the three signals
`inputValue`, `warningMessage`, `isSendButtonDisabled`. -/
structure ComposerState where
  inputValue : String
  warningMessage : String
  isSendButtonDisabled : Bool
  deriving Repr, DecidableEq

/-- Initial state on creation: `createSignal(props.defaultValue ?? '')`,
`createSignal(false)` for the send-disabled flag and `createSignal('')`
for the warning.  No validation is applied to the default value. -/
def initState (props : Props) : ComposerState :=
  { inputValue := props.defaultValue.getD ""
    warningMessage := ""
    isSendButtonDisabled := false }

/-- The default over-limit warning text, templated with the limit:
`` `You exceeded the characters limit. Please input less than ${props.maxChars} characters.` ``. -/
def defaultMaxCharsWarning (m : Nat) : String :=
  "You exceeded the characters limit. Please input less than " ++ toString m ++ " characters."

/-- JavaScript truthiness of the `maxChars` prop: `undefined` and `0`
are falsy, every other natural number is truthy. -/
def maxCharsTruthy : Option Nat → Bool
  | none => false
  | some m => m != 0

/-- `handleInput(newValue)`: if `props.maxChars && newValue.length >
props.maxChars`, keep the text, set the warning
(`props.maxCharsWarningMessage ?? default`) and disable send;
otherwise commit the text, clear the warning and enable send. -/
def handleInput (props : Props) (s : ComposerState) (newValue : String) : ComposerState :=
  let wordCount := newValue.length
  if maxCharsTruthy props.maxChars ∧ wordCount > props.maxChars.getD 0 then
    { s with
      warningMessage :=
        props.maxCharsWarningMessage.getD (defaultMaxCharsWarning (props.maxChars.getD 0))
      isSendButtonDisabled := true }
  else
    { inputValue := newValue
      warningMessage := ""
      isSendButtonDisabled := false }

/-- `checkIfInputIsValid()`: the text signal is non-empty, the warning
signal is empty, and `inputRef?.reportValidity()` is truthy.  The
native validity report (falsy also when the ref is absent) is the
boolean argument `reportValidity`. -/
def checkIfInputIsValid (s : ComposerState) (reportValidity : Bool) : Bool :=
  s.inputValue != "" && s.warningMessage == "" && reportValidity

/-- `submit()`: when `checkIfInputIsValid()` holds, call
`props.onSubmit(inputValue())` and then `setInputValue('')`; otherwise
do nothing.  The second component is the argument passed to
`onSubmit` (`none` when the callback is not invoked). -/
def submit (s : ComposerState) (reportValidity : Bool) : ComposerState × Option String :=
  if checkIfInputIsValid s reportValidity then
    ({ s with inputValue := "" }, some s.inputValue)
  else
    (s, none)

/-- The fields of a keyboard event read by `submitWhenEnter`. -/
structure KeyboardEvent where
  key : String
  isComposing : Bool
  keyCode : Nat
  deriving Repr, DecidableEq

/-- `submitWhenEnter(e)`: call `submit()` when the key is Enter, no
IME composition is active (`e.isComposing || e.keyCode === 229`), and
the warning signal is empty. -/
def submitWhenEnter (e : KeyboardEvent) (s : ComposerState) (reportValidity : Bool) :
    ComposerState × Option String :=
  let isIMEComposition := e.isComposing || e.keyCode == 229
  if e.key == "Enter" && !isIMEComposition && s.warningMessage == "" then
    submit s reportValidity
  else
    (s, none)

/-- `deleteCharacter()`: with the text as its character sequence and
`cursorPosition := inputRef?.selectionStart ?? 0`, when the cursor is
past position 0 replace the text by
`slice(0, cursorPosition - 1) + slice(cursorPosition)` and move the
selection to `cursorPosition - 1`; otherwise change nothing.  Returns
the new text and the new cursor position. -/
def deleteCharacter (text : List Char) (cursorPosition : Nat) : List Char × Nat :=
  if cursorPosition > 0 then
    (text.take (cursorPosition - 1) ++ text.drop cursorPosition, cursorPosition - 1)
  else
    (text, cursorPosition)

/-- The autofocus decision in `onMount`:
`props.autoFocus !== undefined ? props.autoFocus : !isMobile() && window.innerWidth > 640`. -/
def shouldAutoFocus (props : Props) (isMobile : Bool) (innerWidth : Nat) : Bool :=
  match props.autoFocus with
  | some b => b
  | none => !isMobile && innerWidth > 640

/-- Whether `onMount` calls `inputRef.focus()`:
`!props.disabled && shouldAutoFocus && inputRef`. -/
def focusOnMount (props : Props) (isMobile : Bool) (innerWidth : Nat)
    (inputRefPresent : Bool) : Bool :=
  !(props.disabled.getD false) && shouldAutoFocus props isMobile innerWidth && inputRefPresent

/-- The fields of a file-selection event read by `handleFileChange`:
whether `event.target` is non-null, and its current `value`. -/
structure FileEvent where
  targetPresent : Bool
  targetValue : String
  deriving Repr, DecidableEq

/-- Observable actions of the local `handleFileChange` wrapper. -/
inductive FileAction where
  | forwardToHost (event : FileEvent)
  | resetTargetValue
  deriving Repr, DecidableEq

/-- The local `handleFileChange(event)` wrapper: call
`props.handleFileChange(event)`, then `if (event.target)
event.target.value = ''`.  Returned as the ordered trace of its
observable actions. -/
def handleFileChange (event : FileEvent) : List FileAction :=
  [FileAction.forwardToHost event] ++
    (if event.targetPresent then [FileAction.resetTargetValue] else [])

/-! ## Helper lemmas -/

/-- The default over-limit warning is never the empty string. -/
theorem defaultMaxCharsWarning_ne_empty (m : Nat) : defaultMaxCharsWarning m ≠ "" := by
  have h1 : 0 < (defaultMaxCharsWarning m).length := by
    unfold defaultMaxCharsWarning
    rw [String.length_append, String.length_append]
    have h2 : 0 < ("You exceeded the characters limit. Please input less than ").length := by
      decide
    omega
  intro h
  rw [h] at h1
  simp at h1

/-! ## Claims -/

/-- Claim C1: for every input-change event whose new text has length at most the
configured `maxChars` (or when `maxChars` is unset), `handleInput` sets the text
state to the new text, clears the warning, and enables the send action. -/
theorem handleInput_within_limit_commits (props : Props) (s : ComposerState)
    (newValue : String)
    (h : props.maxChars = none ∨ ∃ m, props.maxChars = some m ∧ newValue.length ≤ m) :
    handleInput props s newValue =
      { inputValue := newValue, warningMessage := "", isSendButtonDisabled := false } := by
  rcases h with h | ⟨m, hm, hle⟩
  · simp [handleInput, maxCharsTruthy, h]
  · have hnot : ¬ (maxCharsTruthy props.maxChars = true ∧
        newValue.length > (props.maxChars.getD 0)) := by
      rw [hm]
      rintro ⟨-, hgt⟩
      simp at hgt
      omega
    simp only [handleInput, if_neg hnot]

/-- Witness for C1 at a concrete input. -/
theorem handleInput_within_limit_commits_witness :
    "hello".length ≤ 5 ∧
      handleInput ⟨none, none, some 5, none, none⟩ ⟨"", "", false⟩ "hello"
        = ⟨"hello", "", false⟩ :=
  ⟨by decide,
    handleInput_within_limit_commits _ _ _ (Or.inr ⟨5, rfl, by decide⟩)⟩

/-- Counterexample to Claim C2 as stated.  First conjunct: with `maxChars`
configured as `0` and input of length `1 > 0`, the text is committed, the
warning stays empty and send stays enabled (JS truthiness makes `0` behave as
no limit).  Second conjunct: with `maxChars = 1` and the host-supplied warning
message equal to the empty string, the over-limit branch sets an EMPTY warning
message, contradicting the claimed non-emptiness. -/
theorem handleInput_over_limit_counterexample :
    (handleInput ⟨none, none, some 0, none, none⟩ ⟨"", "", false⟩ "a"
        = ⟨"a", "", false⟩ ∧ "a".length > 0)
    ∧ (handleInput ⟨none, none, some 1, some "", none⟩ ⟨"", "", false⟩ "ab"
        = ⟨"", "", true⟩ ∧ "ab".length > 1) := by
  constructor
  · exact ⟨by decide, by decide⟩
  · exact ⟨by decide, by decide⟩

/-- Claim C2 (amended): for every input-change event whose new text has length
strictly greater than a configured NONZERO `maxChars`, `handleInput` leaves the
text state unchanged from before the edit, sets the warning message to the
host-supplied `maxCharsWarningMessage` when provided and otherwise to a
non-empty default templated with the limit, and disables the send action. -/
theorem handleInput_over_nonzero_limit (props : Props) (s : ComposerState)
    (newValue : String) (m : Nat)
    (hm : props.maxChars = some m) (hm0 : m ≠ 0) (hgt : newValue.length > m) :
    handleInput props s newValue =
        { s with
          warningMessage :=
            props.maxCharsWarningMessage.getD (defaultMaxCharsWarning m)
          isSendButtonDisabled := true }
      ∧ (props.maxCharsWarningMessage = none →
          (handleInput props s newValue).warningMessage ≠ "") := by
  have hc : maxCharsTruthy (some m) = true ∧ newValue.length > m :=
    ⟨by simp [maxCharsTruthy, hm0], hgt⟩
  constructor
  · simp only [handleInput, hm, Option.getD_some, if_pos hc]
  · intro hnone
    simp only [handleInput, hm, hnone, Option.getD_none, Option.getD_some, if_pos hc]
    exact defaultMaxCharsWarning_ne_empty m

/-- Witness for the amended C2 at a concrete input. -/
theorem handleInput_over_nonzero_limit_witness :
    "hello!".length > 5 ∧
      (handleInput ⟨none, none, some 5, none, none⟩ ⟨"hello", "", false⟩ "hello!"
          = ⟨"hello", defaultMaxCharsWarning 5, true⟩
        ∧ ((none : Option String) = none →
            (handleInput ⟨none, none, some 5, none, none⟩ ⟨"hello", "", false⟩
                "hello!").warningMessage ≠ "")) :=
  ⟨by decide,
    handleInput_over_nonzero_limit ⟨none, none, some 5, none, none⟩
      ⟨"hello", "", false⟩ "hello!" 5 rfl (by decide) (by decide)⟩

/-- Claim C3: invoking `submit` with empty text, or with a non-empty warning,
or while the field reports itself invalid, never invokes `onSubmit` and leaves
the composer state unchanged. -/
theorem submit_invalid_rejected (s : ComposerState) (reportValidity : Bool)
    (h : s.inputValue = "" ∨ s.warningMessage ≠ "" ∨ reportValidity = false) :
    submit s reportValidity = (s, none) := by
  unfold submit checkIfInputIsValid
  rcases h with h | h | h <;> simp [h]

/-- Witness for C3 at a concrete input. -/
theorem submit_invalid_rejected_witness :
    (("" : String) = "" ∨ ("" : String) ≠ "" ∨ true = false) ∧
      submit ⟨"", "", false⟩ true = (⟨"", "", false⟩, none) :=
  ⟨Or.inl rfl, submit_invalid_rejected ⟨"", "", false⟩ true (Or.inl rfl)⟩

/-- Claim C4: invoking `submit` with non-empty text, an empty warning, and a
field that reports itself valid invokes `onSubmit` exactly once with exactly
the current text (no trimming), and afterwards the text state is empty. -/
theorem submit_valid_fires_once (s : ComposerState)
    (h1 : s.inputValue ≠ "") (h2 : s.warningMessage = "") :
    submit s true = ({ s with inputValue := "" }, some s.inputValue) := by
  unfold submit checkIfInputIsValid
  simp [h1, h2]

/-- Witness for C4 at a concrete input. -/
theorem submit_valid_fires_once_witness :
    ("hi" : String) ≠ "" ∧
      submit ⟨"hi", "", false⟩ true = (⟨"", "", false⟩, some "hi") :=
  ⟨by decide, submit_valid_fires_once ⟨"hi", "", false⟩ (by decide) rfl⟩

/-- Claim C5: a keyboard event with an active IME composition (composing flag
true, or key code 229) never triggers `submit` and never invokes `onSubmit`,
even when the key is Enter. -/
theorem submitWhenEnter_ime_never_submits (e : KeyboardEvent) (s : ComposerState)
    (reportValidity : Bool)
    (h : e.isComposing = true ∨ e.keyCode = 229) :
    submitWhenEnter e s reportValidity = (s, none) := by
  unfold submitWhenEnter
  rcases h with h | h <;> simp [h]

/-- Witness for C5 at a concrete input: Enter pressed mid-composition on a
valid, non-empty composer. -/
theorem submitWhenEnter_ime_never_submits_witness :
    (true = true ∨ (13 : Nat) = 229) ∧
      submitWhenEnter ⟨"Enter", true, 13⟩ ⟨"hi", "", false⟩ true
        = (⟨"hi", "", false⟩, none) :=
  ⟨Or.inl rfl,
    submitWhenEnter_ime_never_submits ⟨"Enter", true, 13⟩ ⟨"hi", "", false⟩ true
      (Or.inl rfl)⟩

/-- Claim C6: for every text and cursor position p within the text, a Backspace
with p greater than 0 removes exactly the character at index p - 1 and leaves
the cursor at p - 1; at p = 0 it changes neither the text nor the cursor. -/
theorem deleteCharacter_backspace (text : List Char) (p : Nat)
    (hp : p ≤ text.length) :
    (0 < p → deleteCharacter text p = (text.eraseIdx (p - 1), p - 1))
    ∧ (p = 0 → deleteCharacter text p = (text, p)) := by
  constructor
  · intro h
    have hp1 : p - 1 + 1 = p := Nat.succ_pred_eq_of_pos h
    unfold deleteCharacter
    rw [if_pos h, List.eraseIdx_eq_take_drop_succ, hp1]
  · intro h
    subst h
    simp [deleteCharacter]

/-- Witness for C6 at a concrete input: Backspace at cursor 3 in "abcd". -/
theorem deleteCharacter_backspace_witness :
    3 ≤ (['a', 'b', 'c', 'd'] : List Char).length ∧
      ((0 < 3 →
          deleteCharacter ['a', 'b', 'c', 'd'] 3
            = ((['a', 'b', 'c', 'd'] : List Char).eraseIdx 2, 2))
        ∧ (3 = 0 → deleteCharacter ['a', 'b', 'c', 'd'] 3 = (['a', 'b', 'c', 'd'], 3))) :=
  ⟨by decide, deleteCharacter_backspace ['a', 'b', 'c', 'd'] 3 (by decide)⟩

/-- Claim C7: on mount (with the input ref present) the field receives focus
iff the widget is not disabled and either `autoFocus` is explicitly `true`, or
`autoFocus` is unset, the device is not mobile-class, and the viewport width
is strictly greater than 640. -/
theorem focusOnMount_iff (props : Props) (isMobile : Bool) (innerWidth : Nat) :
    focusOnMount props isMobile innerWidth true = true ↔
      props.disabled.getD false = false ∧
        (props.autoFocus = some true ∨
          (props.autoFocus = none ∧ isMobile = false ∧ 640 < innerWidth)) := by
  unfold focusOnMount shouldAutoFocus
  cases h : props.autoFocus with
  | none =>
    simp [h]
  | some b =>
    cases b <;> simp [h]

/-- Claim C8: when a file-selection event carries a target, the wrapper first
forwards the event unchanged to the host handler and then resets the native
input's value. -/
theorem handleFileChange_forward_then_reset (event : FileEvent)
    (h : event.targetPresent = true) :
    handleFileChange event
      = [FileAction.forwardToHost event, FileAction.resetTargetValue] := by
  simp [handleFileChange, h]

/-- Witness for C8 at a concrete event. -/
theorem handleFileChange_forward_then_reset_witness :
    (FileEvent.mk true "photo.png").targetPresent = true ∧
      handleFileChange ⟨true, "photo.png"⟩
        = [FileAction.forwardToHost ⟨true, "photo.png"⟩, FileAction.resetTargetValue] :=
  ⟨rfl, handleFileChange_forward_then_reset ⟨true, "photo.png"⟩ rfl⟩

/-- Claim C9: a configured `maxChars` of 0 disables the limit entirely: every
input is committed with no warning and send enabled, exactly as when
`maxChars` is unset. -/
theorem handleInput_maxChars_zero (props : Props) (s : ComposerState)
    (newValue : String) (h : props.maxChars = some 0) :
    handleInput props s newValue
        = { inputValue := newValue, warningMessage := "", isSendButtonDisabled := false }
      ∧ handleInput props s newValue
        = handleInput { props with maxChars := none } s newValue := by
  constructor
  · simp [handleInput, maxCharsTruthy, h]
  · simp [handleInput, maxCharsTruthy, h]

/-- Witness for C9 at a concrete input far longer than the configured limit. -/
theorem handleInput_maxChars_zero_witness :
    (Props.mk none none (some 0) none none).maxChars = some 0 ∧
      (handleInput ⟨none, none, some 0, none, none⟩ ⟨"", "", false⟩ "aaaaaaaaaa"
          = ⟨"aaaaaaaaaa", "", false⟩
        ∧ handleInput ⟨none, none, some 0, none, none⟩ ⟨"", "", false⟩ "aaaaaaaaaa"
          = handleInput ⟨none, none, none, none, none⟩ ⟨"", "", false⟩ "aaaaaaaaaa") :=
  ⟨rfl, handleInput_maxChars_zero ⟨none, none, some 0, none, none⟩ ⟨"", "", false⟩
    "aaaaaaaaaa" rfl⟩

/-- Claim C10: the initial state carries the host default value (or the empty
string), with no warning and send enabled, regardless of any configured limit;
a non-empty default — including one longer than `maxChars` — is submittable
as-is. -/
theorem initState_no_validation (props : Props) :
    (initState props).inputValue = props.defaultValue.getD ""
      ∧ (initState props).warningMessage = ""
      ∧ (initState props).isSendButtonDisabled = false
      ∧ ((initState props).inputValue ≠ "" →
          submit (initState props) true
            = ({ initState props with inputValue := "" },
                some ((initState props).inputValue))) := by
  refine ⟨rfl, rfl, rfl, ?_⟩
  intro h
  unfold submit checkIfInputIsValid
  simp only [initState] at h ⊢
  simp [h]

/-- Witness for C10: a default value of length 8 with `maxChars = 5` starts
unvalidated and submits as-is. -/
theorem initState_no_validation_witness :
    "abcdefgh".length > 5 ∧
      submit (initState ⟨some "abcdefgh", none, some 5, none, none⟩) true
        = (⟨"", "", false⟩, some "abcdefgh") := by
  refine ⟨by decide, ?_⟩
  have h :=
    (initState_no_validation ⟨some "abcdefgh", none, some 5, none, none⟩).2.2.2
      (by decide)
  exact h
